import Mathlib

/-!
Verification of the exam-paper platform's paper-assembly core.

The definitions below are a shallow embedding of the Python sources:
  * `app/llm/nodes/validate.py`  (question validator)
  * `app/llm/paper_planner.py`   (blueprint builder)
  * `app/llm/graph_flow.py`      (generate/validate/retry workflow)
  * `app/services/exam_service.py` (orchestration facade)
  * `app/graph/queries.py`       (subject-label table; the graph queries
    themselves are external collaborators and appear as parameters)

Question text is modelled as `String` (lists of characters); Python's
small-float arithmetic in the blueprint builder is modelled over `ℚ` for
the difficulty draw and over `Nat` floor division for the count split
(for `total ≤ 120`, `int(total*0.5)` and `int(total*0.3)` agree with
`total / 2` and `3 * total / 10`: the double-precision products never
round across an integer boundary in that range).
-/

namespace ExamPlatform

/-! ## Python string primitives -/

/-- The six ASCII whitespace characters recognised by Python's `str.strip`
and `str.split` (and by `\s` on ASCII text). -/
def pyIsSpace (c : Char) : Bool :=
  c = ' ' || c = '\t' || c = '\n' || c = '\x0d' || c = '\x0b' || c = '\x0c'

/-- Python `str.strip()`: drop leading and trailing whitespace. -/
def pyStrip (l : List Char) : List Char :=
  ((l.dropWhile pyIsSpace).reverse.dropWhile pyIsSpace).reverse

/-- Python `str.strip()` on `String`. -/
def pyStripStr (s : String) : String :=
  ⟨pyStrip s.data⟩

/-- Python `str.lower()` restricted to ASCII letters (the only characters the
validator's keyword lists contain). -/
def pyToLower (c : Char) : Char :=
  if 'A' ≤ c && c ≤ 'Z' then Char.ofNat (c.toNat + 32) else c

/-- Python `needle in haystack` substring test. -/
def isSubstrOf (needle : List Char) : List Char → Bool
  | [] => needle.isEmpty
  | c :: rest => needle.isPrefixOf (c :: rest) || isSubstrOf needle rest

/-- Helper for Python `len(text.split())`: count maximal whitespace-free runs,
tracking whether the scan is currently inside a word. -/
def wordCountAux : List Char → Bool → Nat
  | [], _ => 0
  | c :: rest, inWord =>
      if pyIsSpace c then wordCountAux rest false
      else (if inWord then 0 else 1) + wordCountAux rest true

/-! ## `app/llm/nodes/validate.py` -/

/-- `word_count` (validate.py line 45): `len(text.split())`. -/
def word_count (l : List Char) : Nat := wordCountAux l false

/-- `MIN_LENGTH` (validate.py line 8). -/
def MIN_LENGTH : Nat := 30

/-- `MAX_LENGTH` (validate.py line 9). -/
def MAX_LENGTH : Nat := 320

/-- `FORBIDDEN_PHRASES` (validate.py lines 11–16). -/
def FORBIDDEN_PHRASES : List String :=
  ["solution", "explain", "explanation", "correct answer"]

/-- `NON_EE_KEYWORDS` (validate.py lines 18–24). -/
def NON_EE_KEYWORDS : List String :=
  ["chemical", "civil engineering", "biotechnology", "medical", "organic chemistry"]

/-- The keys of `DIFFICULTY_RULES` (validate.py lines 26–39); only membership
is ever consulted by the validator. -/
def DIFFICULTY_LEVELS : List String := ["Easy", "Medium", "Hard"]

/-- `contains_forbidden_phrase` (validate.py lines 48–50). -/
def contains_forbidden_phrase (l : List Char) : Bool :=
  let t := l.map pyToLower
  FORBIDDEN_PHRASES.any (fun p => isSubstrOf p.data t)

/-- `contains_non_ee_content` (validate.py lines 52–54). -/
def contains_non_ee_content (l : List Char) : Bool :=
  let t := l.map pyToLower
  NON_EE_KEYWORDS.any (fun p => isSubstrOf p.data t)

/-- Matcher for the tail of `\(\s*[a-z]\s*\)` once an opening parenthesis has
been consumed (the character classes `\s` and `[a-z]` are disjoint, so the
greedy scan below is exactly the regex's behaviour). -/
def subpartAfterParen (l : List Char) : Bool :=
  match l.dropWhile pyIsSpace with
  | [] => false
  | c :: rest =>
      ('a' ≤ c && c ≤ 'z') &&
        (match rest.dropWhile pyIsSpace with
         | ')' :: _ => true
         | _ => false)

/-- `re.search(r"\(\s*[a-z]\s*\)", ...)`: does any position start a match? -/
def hasSubpartPattern : List Char → Bool
  | [] => false
  | c :: rest => (c = '(' && subpartAfterParen rest) || hasSubpartPattern rest

/-- `appears_multi_question` (validate.py lines 56–62). -/
def appears_multi_question (l : List Char) : Bool :=
  if l.count '?' > 2 then true
  else if hasSubpartPattern (l.map pyToLower) then true
  else false

/-- `{"valid": bool, "reason": str}` returned by the validator. -/
structure ValidationResult where
  valid : Bool
  reason : String
deriving DecidableEq, Repr

/-- The question dictionaries flowing through the workflow
(`GeneratedQuestion` in the data model): `{concept, difficulty, question,
validation_error?}`. -/
structure GeneratedQuestion where
  concept : String
  difficulty : String
  question : String
  validation_error : Option String := none
deriving DecidableEq, Repr

/-- `validate_question` (validate.py lines 68–104): the ordered,
short-circuiting rule chain. -/
def validate_question (q : GeneratedQuestion) : ValidationResult :=
  let text := pyStrip q.question.data
  if appears_multi_question text then
    ⟨false, "Multiple questions detected"⟩
  else
    let wc := word_count text
    if wc < MIN_LENGTH then ⟨false, "Question too short"⟩
    else if wc > MAX_LENGTH then ⟨false, "Question too long"⟩
    else if contains_forbidden_phrase text then
      ⟨false, "Contains solution/explanation language"⟩
    else if contains_non_ee_content text then
      ⟨false, "Out-of-domain (non-EE) content"⟩
    else if ¬ DIFFICULTY_LEVELS.contains q.difficulty then
      ⟨false, "Unknown difficulty level"⟩
    else ⟨true, "OK"⟩

/-! ## `app/llm/paper_planner.py` -/

/-- `BlueprintItem` (paper_planner.py lines 4–8). -/
structure BlueprintItem where
  concept : String
  difficulty : String
  reason : String
deriving DecidableEq, Repr

/-- The `distribution` dict of a blueprint; its keys are fixed
(`"high_frequency"`, `"recency_gap"`, `"never_asked"`), so it is a record. -/
structure Distribution where
  high_frequency : Nat
  recency_gap : Nat
  never_asked : Nat
deriving DecidableEq, Repr

/-- `PaperBlueprint` (paper_planner.py lines 10–15). -/
structure PaperBlueprint where
  total_questions : Nat
  distribution : Distribution
  questions : List BlueprintItem
  subject : String
deriving DecidableEq, Repr

/-- Row of `get_high_frequency_concepts`: `{concept, score}`. -/
structure ConceptScore where
  concept : String
  score : Nat
deriving DecidableEq, Repr

/-- Row of `get_recency_gap_concepts`: `{concept, last_asked}`. -/
structure ConceptLast where
  concept : String
  last_asked : Option Nat
deriving DecidableEq, Repr

/-- Row of `get_never_asked_concepts`: `{concept}`. -/
structure ConceptOnly where
  concept : String
deriving DecidableEq, Repr

/-- The three graph-retrieval collaborators consumed by the blueprint builder
(`app/graph/queries.py`, external boundary): each takes a limit, the optional
subject (and for recency-gap the cutoff year) and returns concept rows. -/
structure RetrieverEnv where
  highFreq : Nat → Option String → List ConceptScore
  recencyGap : Nat → Nat → Option String → List ConceptLast
  neverAsked : Nat → Option String → List ConceptOnly

/-- `assign_difficulty` (paper_planner.py lines 50–56) applied to one draw of
`random.random()`, modelled as a rational in `[0,1)`. -/
def assign_difficulty (r : ℚ) : String :=
  if r < 3/10 then "Easy"
  else if r < 8/10 then "Medium"
  else "Hard"

/-- `build_paper_blueprint` (paper_planner.py lines 26–97).  The random stream
`rs` supplies the successive `random.random()` draws; `int(total*0.5)` and
`int(total*0.3)` are `total / 2` and `3 * total / 10` (exact for the request
range `total ≤ 120`, see the header comment). -/
def build_paper_blueprint (env : RetrieverEnv) (rs : Nat → ℚ)
    (total_questions : Nat) (cutoff_year : Nat) (subject : Option String) :
    PaperBlueprint :=
  let hf_count := total_questions / 2
  let rg_count := 3 * total_questions / 10
  let na_count := total_questions - hf_count - rg_count
  let high_freq := env.highFreq hf_count subject
  let recency_gap := env.recencyGap cutoff_year rg_count subject
  let never_asked := env.neverAsked na_count subject
  let bp1 := high_freq.enum.map (fun p =>
    BlueprintItem.mk p.2.concept (assign_difficulty (rs p.1)) "High frequency in PYQs")
  let k1 := high_freq.length
  let bp2 := recency_gap.enum.map (fun p =>
    BlueprintItem.mk p.2.concept (assign_difficulty (rs (k1 + p.1))) "Not asked recently")
  let k2 := k1 + recency_gap.length
  let bp3 := never_asked.enum.map (fun p =>
    BlueprintItem.mk p.2.concept (assign_difficulty (rs (k2 + p.1))) "Never asked in PYQs")
  { total_questions := total_questions
    distribution :=
      { high_frequency := hf_count
        recency_gap := rg_count
        never_asked := na_count }
    questions := bp1 ++ bp2 ++ bp3
    subject := subject.getD "" }

/-! ## `app/llm/graph_flow.py` -/

/-- `PaperState` (graph_flow.py lines 15–24): the dict threaded through the
workflow.  `blueprint` is optional because the initial `invoke` payload does
not carry the key yet. -/
structure PaperState where
  total_questions : Nat
  cutoff_year : Nat
  blueprint : Option PaperBlueprint := none
  questions : List GeneratedQuestion := []
  validated_questions : List GeneratedQuestion := []
  final_questions : List GeneratedQuestion := []
  failed_questions : List GeneratedQuestion := []
  retry_count : Nat := 0
deriving DecidableEq, Repr

/-- A question generator collaborator: `generate_question(concept, difficulty)`
as the workflow nodes call it (graph_flow.py lines 67–70 and 119–122). -/
def Generator := String → String → GeneratedQuestion

/-- A validator collaborator, with `validate_question` as the deployed
instance. -/
def Validator := GeneratedQuestion → ValidationResult

/-- The Python loop body of `validate_questions_node` (graph_flow.py lines
86–92): partition the current batch into accepted and rejected questions,
attaching the failure reason to each reject. -/
def splitValidated (val : Validator) :
    List GeneratedQuestion → List GeneratedQuestion × List GeneratedQuestion
  | [] => ([], [])
  | q :: rest =>
      let result := val q
      let (v, f) := splitValidated val rest
      if result.valid then (q :: v, f)
      else (v, { q with validation_error := some result.reason } :: f)

/-- `validate_questions_node` (graph_flow.py lines 82–106). -/
def validate_questions_node (val : Validator) (s : PaperState) : PaperState :=
  let (valid, failed) := splitValidated val s.questions
  let accumulated := s.final_questions ++ valid
  { s with
      validated_questions := accumulated
      final_questions := accumulated
      failed_questions := failed }

/-- `MAX_RETRIES` (graph_flow.py line 108). -/
def MAX_RETRIES : Nat := 2

/-- `regenerate_failed_questions` (graph_flow.py lines 110–128): a no-op when
the retry budget is exhausted or nothing failed; otherwise regenerate every
failed item from its concept and difficulty, replacing the working batch, and
increment the retry counter. -/
def regenerate_failed_questions (gen : Generator) (s : PaperState) : PaperState :=
  if MAX_RETRIES ≤ s.retry_count || s.failed_questions.isEmpty then s
  else
    { s with
        questions := s.failed_questions.map (fun q => gen q.concept q.difficulty)
        retry_count := s.retry_count + 1 }

/-- `should_retry` (graph_flow.py lines 130–133). -/
def should_retry (s : PaperState) : Bool :=
  !s.failed_questions.isEmpty && s.retry_count < MAX_RETRIES

/-- `finalize_paper` (graph_flow.py lines 135–138): returns only the
`final_questions` channel, leaving the state unchanged after the merge. -/
def finalize_paper (s : PaperState) : PaperState :=
  { s with final_questions := s.final_questions }

/-- The validate → (regenerate → validate)* → finalize loop wired by
`build_graph` (graph_flow.py lines 158–170), entered after
`generate_questions`.  `fuel` bounds the number of validation rounds; any
`fuel ≥ MAX_RETRIES + 1` reaches the terminal state (proved below). -/
def runLoop (gen : Generator) (val : Validator) :
    Nat → PaperState → PaperState
  | 0, s => s
  | fuel + 1, s =>
      let s1 := validate_questions_node val s
      if should_retry s1 then runLoop gen val fuel (regenerate_failed_questions gen s1)
      else finalize_paper s1

/-! ## `app/graph/queries.py` (subject-label table) -/

/-- `SUBJECT_LABELS` (queries.py lines 24–33). -/
def SUBJECT_LABELS : List (String × String) :=
  [("CE 2026", "Civil Engineering"),
   ("CH 2026", "Chemical Engineering"),
   ("CS 2026", "Computer Science Engineering"),
   ("EC 2026", "Electronics and Communication Engineering"),
   ("EE 2026", "Electrical Engineering"),
   ("Electrical Engineering", "Electrical Engineering"),
   ("ME 2026", "Mechanical Engineering"),
   ("MT 2026", "Metallurgical Engineering")]

/-- `resolve_subject_label` (queries.py lines 47–48). -/
def resolve_subject_label (subject_id : String) : String :=
  ((SUBJECT_LABELS.find? (fun p => p.1 = subject_id)).map (fun p => p.2)).getD subject_id

/-- A `{"id": ..., "name": ...}` row of `list_subjects()`. -/
structure SubjectInfo where
  id : String
  name : String
deriving DecidableEq, Repr

/-! ## `app/services/exam_service.py` -/

/-- A Python exception escaping to the caller. -/
inductive PyErr where
  | valueError (msg : String)
  | typeError (msg : String)
deriving DecidableEq, Repr

/-- Pydantic `Question` (schemas/exam.py lines 13–16). -/
structure Question where
  concept : String
  difficulty : String
  question : String
deriving DecidableEq, Repr

/-- Pydantic `GenerateExamResponse` (schemas/exam.py lines 19–25). -/
structure GenerateExamResponse where
  total_questions : Nat
  distribution : Distribution
  questions : List Question
  subject_id : String
  subject_name : String
  topics : List String
deriving DecidableEq, Repr

/-- `_question_from_blueprint_item` (exam_service.py lines 15–22): the
templated placeholder question for one blueprint item. -/
def question_from_blueprint_item (item : BlueprintItem) (subject_label : String) :
    Question :=
  { concept := item.concept
    difficulty := item.difficulty
    question :=
      "Describe a question on " ++ item.concept ++ " from the " ++ subject_label ++
        " syllabus appropriate for " ++ item.difficulty ++ " level candidates." }

/-- The outcome of `validate_request` steps (exam_service.py lines 31–66). -/
structure ValidatedRequest where
  subject_id : String
  subject_label : String
  selected_topics : List String
  topics_filter : Option (List String)
deriving DecidableEq, Repr

/-- Python `set(a) == set(b)` on string lists. -/
def pySetEq (a b : List String) : Bool :=
  a.all (fun x => b.contains x) && b.all (fun x => a.contains x)

/-- Python `sorted({...})` on strings: distinct values in ascending order. -/
def sortedDedup (l : List String) : List String :=
  (l.dedup).insertionSort (fun a b => a ≤ b)

/-- `subject_lookup[...]` built by a dict comprehension (exam_service.py line
39): later pairs overwrite earlier ones, so look up the last match. -/
def lookupLast (subjects : List SubjectInfo) (k : String) : Option String :=
  (subjects.reverse.find? (fun s => s.id = k)).map (fun s => s.name)

/-- The input-validation prefix of `generate_exam` (exam_service.py lines
31–66): subject normalization and lookup, topic resolution, and the
`topics_filter` computation.  `subjects` and `topicsFor` stand for the
`list_subjects` / `list_topics_for_subject` collaborators. -/
def validate_request (subjects : List SubjectInfo) (topicsFor : String → List String)
    (subject : String) (topics : Option (List String)) :
    Except PyErr ValidatedRequest :=
  let subject_id := pyStripStr subject
  if subject_id = "" then .error (.valueError "Subject is required")
  else if subjects.isEmpty then
    .error (.valueError "No subjects available. Please ingest syllabus data first.")
  else
    match lookupLast subjects subject_id with
    | none => .error (.valueError ("Unknown subject: " ++ resolve_subject_label subject_id))
    | some subject_label =>
      let available_topics := topicsFor subject_id
      if available_topics.isEmpty then
        .error (.valueError ("No topics found for " ++ subject_label ++
          ". Please ingest syllabus data before generating questions."))
      else
        let requested_topics := ((topics.getD []).map pyStripStr).filter (fun t => t ≠ "")
        let selectedE : Except PyErr (List String) :=
          if requested_topics.isEmpty then .ok available_topics
          else
            let invalid :=
              sortedDedup (requested_topics.filter (fun t => !available_topics.contains t))
            if invalid.isEmpty then .ok requested_topics
            else .error (.valueError ("Unknown topic(s) for " ++ subject_label ++ ": " ++
              String.intercalate ", " invalid))
        match selectedE with
        | .error e => .error e
        | .ok selected_topics =>
          .ok
          { subject_id := subject_id
            subject_label := subject_label
            selected_topics := selected_topics
            topics_filter :=
              if pySetEq selected_topics available_topics then none else some selected_topics }

/-- Parameter names accepted by `build_paper_blueprint` (paper_planner.py
lines 26–30). -/
def buildPaperBlueprintParams : List String :=
  ["total_questions", "cutoff_year", "subject"]

/-- Keyword arguments supplied at the call site inside `generate_exam`
(exam_service.py lines 68–75), in source order. -/
def examServiceBlueprintKwargs : List String :=
  ["total_questions", "cutoff_year", "subject", "subject_label", "topics",
   "topics_selected"]

/-- Python call semantics for the `build_paper_blueprint(...)` call in
`generate_exam`: a keyword argument that is not a parameter of the callee
raises `TypeError` before the callee's body (or any retriever) runs. -/
def callBuildPaperBlueprint (env : RetrieverEnv) (rs : Nat → ℚ)
    (total_questions cutoff_year : Nat) (subject : Option String) :
    Except PyErr PaperBlueprint :=
  match examServiceBlueprintKwargs.find?
      (fun k => !buildPaperBlueprintParams.contains k) with
  | some k =>
      .error (.typeError
        ("build_paper_blueprint() got an unexpected keyword argument " ++ k))
  | none => .ok (build_paper_blueprint env rs total_questions cutoff_year subject)

/-- The payload `generate_exam` passes to `graph.invoke` (exam_service.py
lines 81–91). -/
structure WorkflowInvokeArgs where
  total_questions : Nat
  cutoff_year : Nat
  retry_count : Nat
  final_questions : List GeneratedQuestion
  failed_questions : List GeneratedQuestion
  subject : String
  subject_label : String
  topics : Option (List String)
  topics_selected : List String
deriving DecidableEq, Repr

/-- The compiled-workflow collaborator: `graph.invoke` either returns a final
state or raises. -/
def Workflow := WorkflowInvokeArgs → Except PyErr PaperState

/-- Lines 79–94 of exam_service.py: the `try/except` around `graph.invoke`
together with the `result.get("final_questions") or
result.get("validated_questions") or []` extraction — any workflow exception
degrades to the empty list. -/
def generatedOf (wfres : Except PyErr PaperState) : List GeneratedQuestion :=
  match wfres with
  | .error _ => []
  | .ok st =>
      if st.final_questions.isEmpty then st.validated_questions
      else st.final_questions

/-- Lines 77 and 96–118 of exam_service.py: response assembly from the
blueprint and the workflow outcome, with the placeholder fallback when no
generated questions survived. -/
def exam_response_from (blueprint : PaperBlueprint)
    (wfres : Except PyErr PaperState)
    (subject_id subject_label : String) (selected_topics : List String) :
    GenerateExamResponse :=
  let distribution := blueprint.distribution
  let generated_questions := generatedOf wfres
  let questions := generated_questions.map
    (fun q => Question.mk q.concept q.difficulty q.question)
  let questions :=
    if questions.isEmpty then
      blueprint.questions.map (fun item => question_from_blueprint_item item subject_label)
    else questions
  { total_questions := questions.length
    distribution := distribution
    questions := questions
    subject_id := subject_id
    subject_name := subject_label
    topics := selected_topics }

/-- `generate_exam` (exam_service.py lines 25–118), parameterized by the
subject/topic catalogue, the blueprint retrievers and random stream, and the
compiled workflow. -/
def generate_exam (subjects : List SubjectInfo) (topicsFor : String → List String)
    (renv : RetrieverEnv) (rs : Nat → ℚ) (workflow : Workflow)
    (total_questions cutoff_year : Nat) (subject : String)
    (topics : Option (List String)) : Except PyErr GenerateExamResponse :=
  match validate_request subjects topicsFor subject topics with
  | .error e => .error e
  | .ok v =>
    match callBuildPaperBlueprint renv rs total_questions cutoff_year
        (some v.subject_id) with
    | .error e => .error e
    | .ok blueprint =>
      let wfres := workflow
        { total_questions := total_questions
          cutoff_year := cutoff_year
          retry_count := 0
          final_questions := []
          failed_questions := []
          subject := v.subject_id
          subject_label := v.subject_label
          topics := v.topics_filter
          topics_selected := v.selected_topics }
      .ok (exam_response_from blueprint wfres v.subject_id v.subject_label
        v.selected_topics)

/-! ## Supporting lemmas -/

theorem pyIsSpace_ne_qmark {c : Char} (h : pyIsSpace c = true) : c ≠ '?' := by
  intro hc
  subst hc
  simp [pyIsSpace] at h

theorem count_qmark_dropWhile (l : List Char) :
    (l.dropWhile pyIsSpace).count '?' = l.count '?' := by
  induction l with
  | nil => rfl
  | cons c rest ih =>
      by_cases hc : pyIsSpace c = true
      · rw [List.dropWhile_cons_of_pos hc, ih,
          List.count_cons_of_ne (by simpa using (pyIsSpace_ne_qmark hc).symm)]
      · rw [List.dropWhile_cons_of_neg hc]

/-- Stripping surrounding whitespace never changes the number of literal
question marks. -/
theorem count_qmark_pyStrip (l : List Char) :
    (pyStrip l).count '?' = l.count '?' := by
  unfold pyStrip
  rw [List.count_reverse, count_qmark_dropWhile, List.count_reverse,
    count_qmark_dropWhile]

/-- C8: a question whose text contains exactly 3 literal question marks is
rejected as "Multiple questions detected" regardless of its word count,
content, or difficulty label: the multi-question rule is evaluated first and
short-circuits the remaining rules. -/
theorem c8_three_question_marks (q : GeneratedQuestion)
    (h : q.question.data.count '?' = 3) :
    validate_question q = ⟨false, "Multiple questions detected"⟩ := by
  have h2 : (pyStrip q.question.data).count '?' = 3 := by
    rw [count_qmark_pyStrip, h]
  simp [validate_question, appears_multi_question, h2]

/-- C8 witness: a concrete 3-question-mark text (too short and with an
unrecognised difficulty, so only rule 1 can be responsible). -/
theorem c8_three_question_marks_witness :
    ("a? b? c?".data.count '?' = 3) ∧
      validate_question ⟨"Network Theorems", "Weird", "a? b? c?", none⟩ =
        ⟨false, "Multiple questions detected"⟩ :=
  ⟨by decide,
    c8_three_question_marks ⟨"Network Theorems", "Weird", "a? b? c?", none⟩
      (by decide)⟩

/-- A 30-word question text containing the blocklisted keyword "chemical"
while passing the multi-question, length, and forbidden-phrase rules. -/
def outOfDomainText : String :=
  String.intercalate " " (List.replicate 30 "chemical")

/-- The corresponding question dictionary. -/
def outOfDomainQuestion : GeneratedQuestion :=
  ⟨"Thermodynamics", "Easy", outOfDomainText, none⟩

set_option maxRecDepth 100000 in
/-- C9 counterexample: on a question that passes rules 1–3 and contains a
blocklist keyword, the validator's reason is the literal string
"Out-of-domain (non-EE) content" (validate.py line 97), not
"Out-of-domain content" as claimed. -/
theorem c9_out_of_domain_reason_cex :
    appears_multi_question (pyStrip outOfDomainQuestion.question.data) = false ∧
      ¬ word_count (pyStrip outOfDomainQuestion.question.data) < MIN_LENGTH ∧
      ¬ word_count (pyStrip outOfDomainQuestion.question.data) > MAX_LENGTH ∧
      contains_forbidden_phrase (pyStrip outOfDomainQuestion.question.data) = false ∧
      contains_non_ee_content (pyStrip outOfDomainQuestion.question.data) = true ∧
      validate_question outOfDomainQuestion ≠ ⟨false, "Out-of-domain content"⟩ := by
  decide

/-- C9 amended: for every question that passes the multi-question, length,
and forbidden-phrase rules but whose lowercased text contains a keyword from
the out-of-domain blocklist, the validator returns
`{valid: false, reason: "Out-of-domain (non-EE) content"}`. -/
theorem c9_out_of_domain_reason (q : GeneratedQuestion)
    (h1 : appears_multi_question (pyStrip q.question.data) = false)
    (h2 : ¬ word_count (pyStrip q.question.data) < MIN_LENGTH)
    (h3 : ¬ word_count (pyStrip q.question.data) > MAX_LENGTH)
    (h4 : contains_forbidden_phrase (pyStrip q.question.data) = false)
    (h5 : contains_non_ee_content (pyStrip q.question.data) = true) :
    validate_question q = ⟨false, "Out-of-domain (non-EE) content"⟩ := by
  simp [validate_question, h1, h2, h3, h4, h5]

set_option maxRecDepth 100000 in
/-- C9 witness for the amended theorem, at the same concrete question. -/
theorem c9_out_of_domain_reason_witness :
    validate_question outOfDomainQuestion =
      ⟨false, "Out-of-domain (non-EE) content"⟩ :=
  c9_out_of_domain_reason outOfDomainQuestion (by decide) (by decide) (by decide)
    (by decide) (by decide)

/-- The validation loop body partitions the batch into the accepted questions
(in order, unchanged) and the rejects (in order, each with the failure reason
attached). -/
theorem splitValidated_eq (val : Validator) (l : List GeneratedQuestion) :
    splitValidated val l =
      (l.filter (fun q => (val q).valid),
       (l.filter (fun q => !(val q).valid)).map
         (fun q => { q with validation_error := some (val q).reason })) := by
  induction l with
  | nil => rfl
  | cons q rest ih =>
      cases h : (val q).valid <;>
        simp [splitValidated, h, ih, List.filter_cons]

/-- C4: in every validation round, accepted questions are appended to the
cumulative `final_questions` accumulator (which therefore grows
monotonically: the previous accumulator is an unchanged prefix of the new
one), while `failed_questions` is replaced by the current round's rejects,
each carrying the attached validation error. -/
theorem c4_validate_accumulator (val : Validator) (s : PaperState) :
    ((validate_questions_node val s).final_questions
        = s.final_questions ++ s.questions.filter (fun q => (val q).valid))
      ∧ ((validate_questions_node val s).validated_questions
        = s.final_questions ++ s.questions.filter (fun q => (val q).valid))
      ∧ ((validate_questions_node val s).failed_questions
        = (s.questions.filter (fun q => !(val q).valid)).map
            (fun q => { q with validation_error := some (val q).reason }))
      ∧ (∃ appended, (validate_questions_node val s).final_questions
            = s.final_questions ++ appended) := by
  refine ⟨?_, ?_, ?_, ?_⟩ <;>
    simp [validate_questions_node, splitValidated_eq]

/-- When every question fails validation, a validation round leaves the
accumulator untouched and marks the whole working batch as failed. -/
theorem validate_always_fail (val : Validator)
    (hval : ∀ q, (val q).valid = false) (t : PaperState) :
    validate_questions_node val t =
      { t with
          validated_questions := t.final_questions
          final_questions := t.final_questions
          failed_questions := t.questions.map
            (fun q => { q with validation_error := some (val q).reason }) } := by
  simp [validate_questions_node, splitValidated_eq, hval]

theorem runLoop_step_retry (gen : Generator) (val : Validator) (f : Nat)
    (t : PaperState) (h : should_retry (validate_questions_node val t) = true) :
    runLoop gen val (f + 1) t =
      runLoop gen val f (regenerate_failed_questions gen (validate_questions_node val t)) := by
  rw [runLoop]
  simp [h]

theorem runLoop_step_finalize (gen : Generator) (val : Validator) (f : Nat)
    (t : PaperState) (h : should_retry (validate_questions_node val t) = false) :
    runLoop gen val (f + 1) t = finalize_paper (validate_questions_node val t) := by
  rw [runLoop]
  simp [h]

/-- C3: the generate-validate-retry loop always terminates.  For every state,
regeneration is taken exactly when `failed_questions` is non-empty and
`retry_count < MAX_RETRIES`; each regeneration round increments `retry_count`
by exactly 1; and with a generator whose output always fails validation, any
run with at least `MAX_RETRIES + 1 = 3` rounds of fuel equals the run with
exactly 3 rounds (so no third regeneration round occurs) and ends with
`retry_count = 2`. -/
theorem c3_retry_loop_bounded (gen : Generator) (val : Validator)
    (s s0 : PaperState) (fuel : Nat)
    (hval : ∀ q, (val q).valid = false)
    (h0 : s0.retry_count = 0) (hq : s0.questions ≠ []) (hfuel : 3 ≤ fuel) :
    (should_retry s = true ↔
        (s.failed_questions ≠ [] ∧ s.retry_count < MAX_RETRIES))
      ∧ (s.failed_questions ≠ [] → s.retry_count < MAX_RETRIES →
          (regenerate_failed_questions gen s).retry_count = s.retry_count + 1)
      ∧ runLoop gen val fuel s0 = runLoop gen val 3 s0
      ∧ (runLoop gen val fuel s0).retry_count = 2 := by
  have hsr : ∀ t : PaperState, t.questions ≠ [] → t.retry_count < MAX_RETRIES →
      should_retry (validate_questions_node val t) = true := by
    intro t ht hr
    rw [validate_always_fail val hval]
    simp [should_retry, List.isEmpty_iff, ht, hr]
  have hnr : ∀ t : PaperState, t.retry_count = MAX_RETRIES →
      should_retry (validate_questions_node val t) = false := by
    intro t hr
    rw [validate_always_fail val hval]
    simp [should_retry, hr]
  have hfields : ∀ t : PaperState, t.questions ≠ [] → t.retry_count < MAX_RETRIES →
      (regenerate_failed_questions gen (validate_questions_node val t)).questions ≠ []
        ∧ (regenerate_failed_questions gen
            (validate_questions_node val t)).retry_count = t.retry_count + 1 := by
    intro t ht hr
    rw [validate_always_fail val hval, regenerate_failed_questions]
    simp [List.isEmpty_iff, ht, Nat.not_le.mpr hr]
  obtain ⟨n, rfl⟩ : ∃ n, fuel = n + 3 := ⟨fuel - 3, by omega⟩
  have hr0 : s0.retry_count < MAX_RETRIES := by
    rw [h0]; decide
  have h1 := hsr s0 hq hr0
  have hf1 := hfields s0 hq hr0
  have hr1 : (regenerate_failed_questions gen
      (validate_questions_node val s0)).retry_count < MAX_RETRIES := by
    rw [hf1.2, h0]; decide
  have h2 := hsr _ hf1.1 hr1
  have hf2 := hfields _ hf1.1 hr1
  have hr2 : (regenerate_failed_questions gen (validate_questions_node val
      (regenerate_failed_questions gen
        (validate_questions_node val s0)))).retry_count = MAX_RETRIES := by
    rw [hf2.2, hf1.2, h0]
    rfl
  have h3 := hnr _ hr2
  have runEq : ∀ m : Nat, runLoop gen val (m + 3) s0 =
      finalize_paper (validate_questions_node val
        (regenerate_failed_questions gen (validate_questions_node val
          (regenerate_failed_questions gen (validate_questions_node val s0))))) := by
    intro m
    rw [show m + 3 = (m + 2) + 1 by omega, runLoop_step_retry gen val _ _ h1,
      show m + 2 = (m + 1) + 1 by omega, runLoop_step_retry gen val _ _ h2,
      show m + 1 = m + 1 by rfl, runLoop_step_finalize gen val _ _ h3]
  refine ⟨?_, ?_, ?_, ?_⟩
  · simp [should_retry, List.isEmpty_iff, MAX_RETRIES]
  · intro hfe hlt
    rw [regenerate_failed_questions]
    simp [List.isEmpty_iff, hfe, Nat.not_le.mpr hlt]
  · rw [runEq n, show (3 : Nat) = 0 + 3 by rfl, runEq 0]
  · rw [runEq n]
    rw [finalize_paper, validate_always_fail val hval]
    exact hr2

/-- A mock generator used to exercise the retry loop. -/
def c3gen : Generator := fun c d => ⟨c, d, "too short", none⟩

/-- A mock validator that rejects everything. -/
def c3val : Validator := fun _ => ⟨false, "Question too short"⟩

/-- A one-question initial workflow state. -/
def c3state : PaperState :=
  { total_questions := 1
    cutoff_year := 2020
    questions := [⟨"Ohm law", "Easy", "too short", none⟩] }

/-- C3 witness: the loop run on a concrete one-question batch with an
always-rejecting validator and 5 rounds of fuel equals the 3-round run and
ends with `retry_count = 2`. -/
theorem c3_retry_loop_bounded_witness :
    (should_retry c3state = true ↔
        (c3state.failed_questions ≠ [] ∧ c3state.retry_count < MAX_RETRIES))
      ∧ (c3state.failed_questions ≠ [] → c3state.retry_count < MAX_RETRIES →
          (regenerate_failed_questions c3gen c3state).retry_count
            = c3state.retry_count + 1)
      ∧ runLoop c3gen c3val 5 c3state = runLoop c3gen c3val 3 c3state
      ∧ (runLoop c3gen c3val 5 c3state).retry_count = 2 :=
  c3_retry_loop_bounded c3gen c3val c3state c3state 5 (fun _ => rfl) rfl
    (by decide) (by decide)

/-- A retriever environment whose graph queries all come back empty. -/
def emptyRetrieverEnv : RetrieverEnv :=
  ⟨fun _ _ => [], fun _ _ _ => [], fun _ _ => []⟩

/-- A degenerate random stream. -/
def zeroRand : Nat → ℚ := fun _ => 0

/-- C5: for every `total_questions` in [1,120], the blueprint's distribution
values sum exactly to `total_questions`, because the never-asked count is the
remainder `total - hf - rg`. -/
theorem c5_distribution_sum (env : RetrieverEnv) (rs : Nat → ℚ)
    (total cutoff : Nat) (subject : Option String)
    (h1 : 1 ≤ total) (h2 : total ≤ 120) :
    ((build_paper_blueprint env rs total cutoff subject).distribution.high_frequency
        + (build_paper_blueprint env rs total cutoff subject).distribution.recency_gap
        + (build_paper_blueprint env rs total cutoff subject).distribution.never_asked
      = total)
      ∧ (build_paper_blueprint env rs total cutoff subject).distribution.never_asked
        = total
          - (build_paper_blueprint env rs total cutoff subject).distribution.high_frequency
          - (build_paper_blueprint env rs total cutoff subject).distribution.recency_gap := by
  constructor
  · simp only [build_paper_blueprint]
    omega
  · rfl

/-- C5 witness at `total_questions = 10`. -/
theorem c5_distribution_sum_witness :
    ((build_paper_blueprint emptyRetrieverEnv zeroRand 10 2020
          (some "EE 2026")).distribution.high_frequency
        + (build_paper_blueprint emptyRetrieverEnv zeroRand 10 2020
            (some "EE 2026")).distribution.recency_gap
        + (build_paper_blueprint emptyRetrieverEnv zeroRand 10 2020
            (some "EE 2026")).distribution.never_asked
      = 10)
      ∧ (build_paper_blueprint emptyRetrieverEnv zeroRand 10 2020
          (some "EE 2026")).distribution.never_asked
        = 10
          - (build_paper_blueprint emptyRetrieverEnv zeroRand 10 2020
              (some "EE 2026")).distribution.high_frequency
          - (build_paper_blueprint emptyRetrieverEnv zeroRand 10 2020
              (some "EE 2026")).distribution.recency_gap :=
  c5_distribution_sum emptyRetrieverEnv zeroRand 10 2020 (some "EE 2026")
    (by decide) (by decide)

/-- C6: for every admissible `total_questions` (the request schema bounds it
by 120, the range on which Python's `int(total*0.5)` / `int(total*0.3)` agree
with the exact floors), the blueprint splits it as `hf = ⌊total/2⌋`,
`rg = ⌊3·total/10⌋`, `na = total - hf - rg`; in particular `total = 10`
yields the distribution `{high_frequency: 5, recency_gap: 3, never_asked: 2}`. -/
theorem c6_distribution_split (env : RetrieverEnv) (rs : Nat → ℚ)
    (total cutoff : Nat) (subject : Option String) (_h : total ≤ 120) :
    (build_paper_blueprint env rs total cutoff subject).distribution
        = ⟨total / 2, 3 * total / 10, total - total / 2 - 3 * total / 10⟩
      ∧ (build_paper_blueprint env rs 10 cutoff subject).distribution = ⟨5, 3, 2⟩ :=
  ⟨rfl, rfl⟩

/-- C6 witness at `total_questions = 10`. -/
theorem c6_distribution_split_witness :
    (build_paper_blueprint emptyRetrieverEnv zeroRand 10 2020
          (some "EE 2026")).distribution
        = ⟨10 / 2, 3 * 10 / 10, 10 - 10 / 2 - 3 * 10 / 10⟩
      ∧ (build_paper_blueprint emptyRetrieverEnv zeroRand 10 2020
          (some "EE 2026")).distribution = ⟨5, 3, 2⟩ :=
  c6_distribution_split emptyRetrieverEnv zeroRand 10 2020 (some "EE 2026")
    (by decide)

/-- C7: when the (stripped) subject is not in the catalogue — in particular
when the catalogue is empty — `generate_exam` returns a `ValueError`
synchronously, and the error does not depend on the blueprint retrievers, the
random stream, or the workflow collaborator: no blueprint building or
generation work is reachable. -/
theorem c7_unknown_subject_synchronous (subjects : List SubjectInfo)
    (topicsFor : String → List String) (total cutoff : Nat) (subject : String)
    (topics : Option (List String))
    (h : subjects.any (fun s => s.id = pyStripStr subject) = false) :
    ∃ msg, ∀ (renv : RetrieverEnv) (rs : Nat → ℚ) (workflow : Workflow),
      generate_exam subjects topicsFor renv rs workflow total cutoff subject topics
        = .error (.valueError msg) := by
  have hvr : ∃ msg, validate_request subjects topicsFor subject topics
      = .error (.valueError msg) := by
    by_cases h1 : pyStripStr subject = ""
    · exact ⟨"Subject is required", by simp [validate_request, h1]⟩
    · by_cases h2 : subjects.isEmpty
      · exact ⟨"No subjects available. Please ingest syllabus data first.",
          by simp [validate_request, h1, h2]⟩
      · have hl : lookupLast subjects (pyStripStr subject) = none := by
          unfold lookupLast
          rw [List.find?_eq_none.mpr]
          · rfl
          · intro x hx hxid
            rw [List.mem_reverse] at hx
            have hx2 : subjects.any (fun s => s.id = pyStripStr subject) = true :=
              List.any_eq_true.mpr ⟨x, hx, hxid⟩
            rw [h] at hx2
            exact Bool.noConfusion hx2
        exact ⟨"Unknown subject: " ++ resolve_subject_label (pyStripStr subject),
          by simp [validate_request, h1, h2, hl]⟩
  obtain ⟨msg, hm⟩ := hvr
  exact ⟨msg, fun renv rs workflow => by simp [generate_exam, hm]⟩

/-- C7 witness: a concrete catalogue and the subject "Nonexistent Subject". -/
theorem c7_unknown_subject_synchronous_witness :
    ∃ msg, ∀ (renv : RetrieverEnv) (rs : Nat → ℚ) (workflow : Workflow),
      generate_exam [⟨"EE 2026", "Electrical Engineering"⟩]
          (fun _ => ["Power Systems"]) renv rs workflow 10 2020
          "Nonexistent Subject" none
        = .error (.valueError msg) :=
  c7_unknown_subject_synchronous [⟨"EE 2026", "Electrical Engineering"⟩]
    (fun _ => ["Power Systems"]) 10 2020 "Nonexistent Subject" none (by decide)

/-- The `build_paper_blueprint(...)` call inside `generate_exam` always
raises: the call site passes the keyword arguments `subject_label`, `topics`
and `topics_selected`, none of which is a parameter of
`build_paper_blueprint(total_questions, cutoff_year, subject)`. -/
theorem callBuildPaperBlueprint_type_error (env : RetrieverEnv) (rs : Nat → ℚ)
    (total cutoff : Nat) (subject : Option String) :
    callBuildPaperBlueprint env rs total cutoff subject
      = .error (.typeError
          "build_paper_blueprint() got an unexpected keyword argument subject_label") :=
  rfl

/-- C1 (exhibiting the code bug): for every request that passes input
validation — any known subject with known topics, any collaborators —
`generate_exam` does not degrade to placeholder questions but raises a
`TypeError` outward, because the mismatched `build_paper_blueprint` call sits
outside the `try/except` that guards the workflow. -/
theorem c1_generate_exam_raises_type_error (subjects : List SubjectInfo)
    (topicsFor : String → List String) (renv : RetrieverEnv) (rs : Nat → ℚ)
    (workflow : Workflow) (total cutoff : Nat) (subject : String)
    (topics : Option (List String)) (v : ValidatedRequest)
    (h : validate_request subjects topicsFor subject topics = .ok v) :
    generate_exam subjects topicsFor renv rs workflow total cutoff subject topics
      = .error (.typeError
          "build_paper_blueprint() got an unexpected keyword argument subject_label") := by
  simp [generate_exam, h, callBuildPaperBlueprint_type_error]

/-- C1 witness: the spec's own end-to-end example (subject "EE 2026" with a
provisioned topic list, `total_questions = 10`, `cutoff_year = 2020`, no
topic filter) raises the `TypeError` even though validation succeeded. -/
theorem c1_generate_exam_raises_type_error_witness :
    generate_exam [⟨"EE 2026", "Electrical Engineering"⟩]
        (fun _ => ["Power Systems"]) emptyRetrieverEnv zeroRand
        (fun _ => .error (.valueError "backend down")) 10 2020 "EE 2026" none
      = .error (.typeError
          "build_paper_blueprint() got an unexpected keyword argument subject_label") :=
  c1_generate_exam_raises_type_error [⟨"EE 2026", "Electrical Engineering"⟩]
    (fun _ => ["Power Systems"]) emptyRetrieverEnv zeroRand
    (fun _ => .error (.valueError "backend down")) 10 2020 "EE 2026" none
    ⟨"EE 2026", "Electrical Engineering", ["Power Systems"], none⟩ rfl

/-- C2: whenever the workflow yields zero questions (exception or total
validation attrition), the response synthesizes exactly one templated
placeholder question per blueprint item — embedding the item's concept and
difficulty and the subject label — so the response contains exactly as many
questions as blueprint items; and the response's distribution always equals
the blueprint's intended distribution, whatever the workflow produced. -/
theorem c2_placeholder_fallback (bp : PaperBlueprint)
    (wfres wfres' : Except PyErr PaperState) (sid slabel : String)
    (tps : List String) (item : BlueprintItem)
    (h : generatedOf wfres = []) :
    ((exam_response_from bp wfres sid slabel tps).questions
        = bp.questions.map (fun it => question_from_blueprint_item it slabel))
      ∧ (exam_response_from bp wfres sid slabel tps).questions.length
          = bp.questions.length
      ∧ (exam_response_from bp wfres' sid slabel tps).distribution
          = bp.distribution
      ∧ (question_from_blueprint_item item slabel).concept = item.concept
      ∧ (question_from_blueprint_item item slabel).difficulty = item.difficulty
      ∧ (question_from_blueprint_item item slabel).question
          = "Describe a question on " ++ item.concept ++ " from the " ++ slabel
              ++ " syllabus appropriate for " ++ item.difficulty
              ++ " level candidates." := by
  refine ⟨?_, ?_, ?_, rfl, rfl, rfl⟩ <;> simp [exam_response_from, h]

/-- A two-item blueprint for exercising the placeholder fallback. -/
def c2bp : PaperBlueprint :=
  ⟨2, ⟨1, 1, 0⟩,
    [⟨"Ohm law", "Easy", "High frequency in PYQs"⟩,
     ⟨"Faraday law", "Hard", "Never asked in PYQs"⟩],
    "EE 2026"⟩

/-- A workflow outcome that raised (degrades to zero questions). -/
def c2wfres : Except PyErr PaperState := .error (.valueError "backend down")

/-- A workflow outcome that produced one accepted question. -/
def c2wfres' : Except PyErr PaperState :=
  .ok { total_questions := 2
        cutoff_year := 2020
        final_questions := [⟨"Ohm law", "Easy", "a sufficiently long question", none⟩] }

/-- The first blueprint item of `c2bp`. -/
def c2item : BlueprintItem := ⟨"Ohm law", "Easy", "High frequency in PYQs"⟩

/-- C2 witness: a failed workflow over a concrete two-item blueprint. -/
theorem c2_placeholder_fallback_witness :
    ((exam_response_from c2bp c2wfres "EE 2026" "Electrical Engineering"
          ["Power Systems"]).questions
        = c2bp.questions.map
            (fun it => question_from_blueprint_item it "Electrical Engineering"))
      ∧ (exam_response_from c2bp c2wfres "EE 2026" "Electrical Engineering"
            ["Power Systems"]).questions.length = c2bp.questions.length
      ∧ (exam_response_from c2bp c2wfres' "EE 2026" "Electrical Engineering"
            ["Power Systems"]).distribution = c2bp.distribution
      ∧ (question_from_blueprint_item c2item "Electrical Engineering").concept
          = c2item.concept
      ∧ (question_from_blueprint_item c2item "Electrical Engineering").difficulty
          = c2item.difficulty
      ∧ (question_from_blueprint_item c2item "Electrical Engineering").question
          = "Describe a question on " ++ c2item.concept ++ " from the "
              ++ "Electrical Engineering" ++ " syllabus appropriate for "
              ++ c2item.difficulty ++ " level candidates." :=
  c2_placeholder_fallback c2bp c2wfres c2wfres' "EE 2026" "Electrical Engineering"
    ["Power Systems"] c2item rfl

/-- A ten-question blueprint whose retrieval under-returned (no items). -/
def c10bp : PaperBlueprint := ⟨10, ⟨5, 3, 2⟩, [], "EE 2026"⟩

/-- A workflow final state in which a single question survived validation. -/
def c10state : PaperState :=
  { total_questions := 10
    cutoff_year := 2020
    final_questions := [⟨"Ohm law", "Easy", "a sufficiently long question", none⟩] }

/-- C10: the response's `total_questions` field is the number of question
objects actually contained in the response, not the caller's requested count;
on a concrete run where one question survived out of ten requested, it
reports 1, strictly smaller than the requested total. -/
theorem c10_total_questions_reports_actual :
    (∀ (bp : PaperBlueprint) (wfres : Except PyErr PaperState)
        (sid slabel : String) (tps : List String),
      (exam_response_from bp wfres sid slabel tps).total_questions
        = (exam_response_from bp wfres sid slabel tps).questions.length)
      ∧ (exam_response_from c10bp (.ok c10state) "EE 2026"
            "Electrical Engineering" []).total_questions = 1
      ∧ 1 < c10bp.total_questions :=
  ⟨fun _ _ _ _ _ => rfl, rfl, by decide⟩

end ExamPlatform
